import Mathlib

/-!
Shallow embedding of the realtime vision assistant client, mainly
src/client/components/ToolPanel.jsx and src/client/components/CameraModal.jsx.
Events, channel observations and fetch outcomes are explicit inputs; the
React state cells are a record threaded through the handlers.
-/

namespace RealtimeVision

/-- One element of a response output collection, with the optional type and
name fields the events effect reads. -/
structure OutputElem where
  etype : Option String
  ename : Option String
deriving DecidableEq, Repr

/-- The value of the output field of an event response: either a single
object with optional type and name fields, or a collection of elements. -/
inductive Output where
  | obj (otype : Option String) (oname : Option String)
  | arr (elems : List OutputElem)
deriving DecidableEq, Repr

/-- The value of the response field of an event. -/
structure RtResponse where
  output : Option Output
deriving DecidableEq, Repr

/-- The value of the function field of an event. -/
structure FunctionField where
  fname : Option String
deriving DecidableEq, Repr

/-- A realtime session event as inspected by the ToolPanel events effect. -/
structure RealtimeEvent where
  etype : String
  function : Option FunctionField
  response : Option RtResponse
deriving DecidableEq, Repr

/-- The optional chain reading the output of the response of an event. -/
def respOutput (ev : RealtimeEvent) : Option Output :=
  ev.response.bind (fun r => r.output)

/-- Reading the type property of the response output: defined on the single
object shape; a collection or a missing output yields undefined (none). -/
def outputDotType : Option Output → Option String
  | some (Output.obj t _) => t
  | _ => none

/-- Reading the name property of the response output: defined on the single
object shape; a collection or a missing output yields undefined (none). -/
def outputDotName : Option Output → Option String
  | some (Output.obj _ n) => n
  | _ => none

/-- The call searching the response output for a function call element: a
missing output is falsy, a collection is searched, and calling the search
method on a plain object is a runtime type error. -/
def outputSomeFC : Option Output → Except Unit Bool
  | none => Except.ok false
  | some (Output.obj _ _) => Except.error ()
  | some (Output.arr es) =>
      Except.ok (es.any (fun o => decide (o.etype = some "function_call")))

/-- The call taking the name of the first function call element of the
response output collection, with the same runtime error on a plain object. -/
def outputFindFCName : Option Output → Except Unit (Option String)
  | none => Except.ok none
  | some (Output.obj _ _) => Except.error ()
  | some (Output.arr es) =>
      Except.ok ((es.find? (fun o => decide (o.etype = some "function_call"))).bind
        (fun o => o.ename))

/-- Truthiness of an optional string: a missing value and the empty string
are falsy. -/
def truthyName : Option String → Bool
  | some s => decide (s ≠ "")
  | none => false

/-- The event condition of the events effect: a direct function call type, an
added output item whose nested output is a function call, or a completed
response whose output collection contains a function call. -/
def isFunctionCallEvent (ev : RealtimeEvent) : Except Unit Bool :=
  if ev.etype = "function_call" then Except.ok true
  else if ev.etype = "response.output_item.added" ∧
      outputDotType (respOutput ev) = some "function_call" then Except.ok true
  else if ev.etype = "response.done" then outputSomeFC (respOutput ev)
  else Except.ok false

/-- The name resolution chain of the events effect, falling through falsy
values: the direct function field name, then the name of the single response
output, then the name of the first function call element of the collection. -/
def resolveFunctionName (ev : RealtimeEvent) : Except Unit (Option String) :=
  if truthyName (ev.function.bind (fun f => f.fname)) then
    Except.ok (ev.function.bind (fun f => f.fname))
  else if truthyName (outputDotName (respOutput ev)) then
    Except.ok (outputDotName (respOutput ev))
  else outputFindFCName (respOutput ev)

/-- Detection of a take_photo invocation on the newest event, including the
runtime error paths the source can take on malformed output fields. -/
def detectTakePhoto (ev : RealtimeEvent) : Except Unit Bool :=
  match isFunctionCallEvent ev with
  | Except.error e => Except.error e
  | Except.ok false => Except.ok false
  | Except.ok true =>
      match resolveFunctionName ev with
      | Except.error e => Except.error e
      | Except.ok n => Except.ok (decide (n = some "take_photo"))

/-- The five state cells of the ToolPanel component. -/
structure PanelState where
  showCamera : Bool
  currentImageFilename : Option String
  isAnalyzing : Bool
  currentImage : Option String
  analysisError : Option String
deriving DecidableEq, Repr

/-- The initial state of the ToolPanel component. -/
def initialState : PanelState :=
  { showCamera := false, currentImageFilename := none, isAnalyzing := false,
    currentImage := none, analysisError := none }

/-- The events effect: a nonempty list is inspected only at its newest event
and, on detection, the camera is shown and the error cleared; otherwise the
state is unchanged or the effect raises the runtime error of the detector. -/
def eventsEffect (events : List RealtimeEvent) (s : PanelState) :
    Except Unit PanelState :=
  match events with
  | [] => Except.ok s
  | ev :: _ =>
      match detectTakePhoto ev with
      | Except.error e => Except.error e
      | Except.ok true => Except.ok { s with showCamera := true, analysisError := none }
      | Except.ok false => Except.ok s

/-- Following the specification wording for the classifier: the three
recognized event shapes, a direct function call, an added output item whose
nested output is a function call, and a completed response whose output
collection contains a function call element. -/
def specShapeMatch (ev : RealtimeEvent) : Bool :=
  decide (ev.etype = "function_call") ||
  (decide (ev.etype = "response.output_item.added") &&
    (match respOutput ev with
     | some (Output.obj t _) => decide (t = some "function_call")
     | _ => false)) ||
  (decide (ev.etype = "response.done") &&
    (match respOutput ev with
     | some (Output.arr es) => es.any (fun o => decide (o.etype = some "function_call"))
     | _ => false))

/-- Following the specification wording for the classifier: the function name
read from the first of three locations holding a nonempty name, in the fixed
precedence order direct function field, nested single output name, then the
first function call element of the output collection. -/
def specResolvedName (ev : RealtimeEvent) : Option String :=
  if truthyName (ev.function.bind (fun f => f.fname)) then
    ev.function.bind (fun f => f.fname)
  else if truthyName (outputDotName (respOutput ev)) then
    outputDotName (respOutput ev)
  else
    match respOutput ev with
    | some (Output.arr es) =>
        (es.find? (fun o => decide (o.etype = some "function_call"))).bind
          (fun o => o.ename)
    | _ => none

/-- An outbound client event sent through sendClientEvent; an optional text
mirrors a possibly undefined analysis text. -/
inductive ClientEvent where
  | functionResult (name : String) (success : Bool)
  | assistantMessage (text : Option String)
  | speechStart (voice : String) (text : Option String)
deriving DecidableEq, Repr

/-- Observation of the delivery environment at one check of the retry loop:
whether the channel handle exists, whether the session is active, and the
ready state of the channel. -/
structure ChannelObs where
  hasChannel : Bool
  sessionActive : Bool
  readyState : String
deriving DecidableEq, Repr

/-- Result discriminator of the retry loop: a silent abort, a successful
send, or the channel unavailable failure thrown after the last attempt. -/
inductive SendResult where
  | aborted
  | sent
  | channelUnavailable
deriving DecidableEq, Repr

/-- Outcome of the retry loop: the result, the client events sent in order,
and the backoff waits performed in order, in milliseconds. -/
structure SendOutcome where
  result : SendResult
  msgs : List ClientEvent
  waits : List Nat
deriving DecidableEq, Repr

/-- The three messages sent when the channel is open, in source order: the
function result, the assistant message, then the speech trigger. -/
def tripleMsgs (text : Option String) : List ClientEvent :=
  [ClientEvent.functionResult "take_photo" true,
   ClientEvent.assistantMessage text,
   ClientEvent.speechStart "verse" text]

/-- One iteration of the sendToModel retry loop, indexed by the attempt
counter and the remaining attempts: abort when the channel handle is missing
or the session inactive, send the triple when the channel is open, otherwise
wait the exponential backoff delay and continue. -/
def sendToModelAux (obs : Nat → ChannelObs) (text : Option String) :
    Nat → Nat → SendOutcome
  | _, 0 => { result := SendResult.channelUnavailable, msgs := [], waits := [] }
  | attempt, fuel + 1 =>
      if (obs attempt).hasChannel = false ∨ (obs attempt).sessionActive = false then
        { result := SendResult.aborted, msgs := [], waits := [] }
      else if (obs attempt).readyState = "open" then
        { result := SendResult.sent, msgs := tripleMsgs text, waits := [] }
      else
        { result := (sendToModelAux obs text (attempt + 1) fuel).result,
          msgs := (sendToModelAux obs text (attempt + 1) fuel).msgs,
          waits := 1000 * 2 ^ attempt :: (sendToModelAux obs text (attempt + 1) fuel).waits }

/-- The sendToModel routine: five maximum attempts starting at attempt zero
with base delay 1000 milliseconds. -/
def sendToModel (obs : Nat → ChannelObs) (text : Option String) : SendOutcome :=
  sendToModelAux obs text 0 5

/-- The channel handle exists, the session is active, and the channel ready
state is not open. -/
def goodClosed (o : ChannelObs) : Prop :=
  o.hasChannel = true ∧ o.sessionActive = true ∧ o.readyState ≠ "open"

/-- The channel handle exists, the session is active, and the channel ready
state is open. -/
def goodOpen (o : ChannelObs) : Prop :=
  o.hasChannel = true ∧ o.sessionActive = true ∧ o.readyState = "open"

instance (o : ChannelObs) : Decidable (goodClosed o) := by
  unfold goodClosed; infer_instance

instance (o : ChannelObs) : Decidable (goodOpen o) := by
  unfold goodOpen; infer_instance

/-- Body of a resolved analysis response as the success path reads it: the
message content present, a message object without content whose content reads
as undefined, or a missing message in which case reading the content raises a
type error whose runtime message is recorded. -/
inductive Body where
  | withContent (text : String)
  | messageNoContent
  | noMessage (tyErrMsg : String)
deriving DecidableEq, Repr

/-- Outcome of the analysis request as the caller sees it: a resolved
response with a body, or a rejection carrying an error message. -/
inductive FetchOutcome where
  | resolved (body : Body)
  | rejected (errMsg : String)
deriving DecidableEq, Repr

/-- The fixed vision timeout in milliseconds. -/
def VISION_TIMEOUT : Nat := 10000

/-- The analyzeWithTimeout race between the request and the ten second timer:
the earlier settle wins; an exact tie is resolved by the scheduler flag. -/
def analyzeWithTimeout (fetchTime : Nat) (outcome : FetchOutcome)
    (tieToFetch : Bool) : FetchOutcome :=
  if fetchTime < VISION_TIMEOUT ∨ (fetchTime = VISION_TIMEOUT ∧ tieToFetch = true) then
    outcome
  else FetchOutcome.rejected "Vision analysis timeout"

/-- Result of handlePhotoTaken: the final panel state, the background
delivery outcome when the success path ran, and the messages sent by the
error path. -/
structure PhotoResult where
  state : PanelState
  delivery : Option SendOutcome
  apologyMsgs : List ClientEvent
deriving DecidableEq, Repr

/-- The catch branch of handlePhotoTaken: record the error message, and on
the timeout message replace it with the dedicated error text and, when the
channel handle exists and is open, send the assistant message and the speech
trigger without a function result. -/
def catchPath (s1 : PanelState) (errMsg : String) (catchObs : ChannelObs) :
    PhotoResult :=
  if errMsg = "Vision analysis timeout" then
    if catchObs.hasChannel = true ∧ catchObs.readyState = "open" then
      { state :=
          { s1 with isAnalyzing := false,
                    analysisError := some "Vision analysis timed out. Please try again." },
        delivery := none,
        apologyMsgs :=
          [ClientEvent.assistantMessage
             (some "Vision analysis timed out. Please try again."),
           ClientEvent.speechStart "verse"
             (some "I\x27m sorry, but the vision analysis timed out. Please try taking another photo.")] }
    else
      { state :=
          { s1 with isAnalyzing := false,
                    analysisError := some "Vision analysis timed out. Please try again." },
        delivery := none, apologyMsgs := [] }
  else
    { state := { s1 with isAnalyzing := false, analysisError := some errMsg },
      delivery := none, apologyMsgs := [] }

/-- The handlePhotoTaken routine: dismiss the camera, record the image, mark
analysis in progress, then on a resolved body with content launch the
background delivery whose failure is only logged, on a body whose content is
missing but whose message object exists proceed with an undefined text, and
otherwise take the catch branch. -/
def handlePhotoTaken (imageData : String) (fetchRes : FetchOutcome)
    (obs : Nat → ChannelObs) (catchObs : ChannelObs) (s : PanelState) :
    PhotoResult :=
  match fetchRes with
  | FetchOutcome.resolved (Body.withContent text) =>
      { state :=
          { s with showCamera := false, currentImage := some imageData,
                   isAnalyzing := false, analysisError := none },
        delivery := some (sendToModel obs (some text)), apologyMsgs := [] }
  | FetchOutcome.resolved Body.messageNoContent =>
      { state :=
          { s with showCamera := false, currentImage := some imageData,
                   isAnalyzing := false, analysisError := none },
        delivery := some (sendToModel obs none), apologyMsgs := [] }
  | FetchOutcome.resolved (Body.noMessage tyErrMsg) =>
      catchPath
        { s with showCamera := false, currentImage := some imageData,
                 isAnalyzing := true, analysisError := none } tyErrMsg catchObs
  | FetchOutcome.rejected errMsg =>
      catchPath
        { s with showCamera := false, currentImage := some imageData,
                 isAnalyzing := true, analysisError := none } errMsg catchObs

/-- The composed photo flow: the race of analyzeWithTimeout feeding
handlePhotoTaken. -/
def handlePhotoTakenRace (imageData : String) (fetchTime : Nat)
    (outcome : FetchOutcome) (tieToFetch : Bool) (obs : Nat → ChannelObs)
    (catchObs : ChannelObs) (s : PanelState) : PhotoResult :=
  handlePhotoTaken imageData (analyzeWithTimeout fetchTime outcome tieToFetch)
    obs catchObs s

/-- The session effect of ToolPanel: when the session is inactive, reset the
camera, analyzing, image and error cells, and when an image filename is set
issue one cleanup request for it and clear the filename. The returned list
holds the filenames posted to the cleanup endpoint. -/
def sessionEndEffect (isSessionActive : Bool) (s : PanelState) :
    PanelState × List String :=
  if isSessionActive = false then
    match s.currentImageFilename with
    | some fn =>
        ({ s with showCamera := false, isAnalyzing := false, currentImage := none,
                  analysisError := none, currentImageFilename := none }, [fn])
    | none =>
        ({ s with showCamera := false, isAnalyzing := false, currentImage := none,
                  analysisError := none }, [])
  else (s, [])

/-- The operations that update the ToolPanel state: an arrival of events, a
change of the session active flag, a completed photo flow, and the close
action of the camera modal. -/
inductive PanelOp where
  | eventsArrive (events : List RealtimeEvent)
  | sessionSet (active : Bool)
  | photoTaken (imageData : String) (fetchRes : FetchOutcome)
      (obs : Nat → ChannelObs) (catchObs : ChannelObs)
  | closeCamera

/-- Application of one operation to the panel state, together with the
cleanup requests it issues. A runtime error of the events effect leaves the
state cells untouched. -/
def applyOp : PanelOp → PanelState → PanelState × List String
  | PanelOp.eventsArrive evs, s =>
      (match eventsEffect evs s with
       | Except.ok s2 => s2
       | Except.error _ => s, [])
  | PanelOp.sessionSet active, s => sessionEndEffect active s
  | PanelOp.photoTaken img fr obs co, s =>
      ((handlePhotoTaken img fr obs co s).state, [])
  | PanelOp.closeCamera, s => ({ s with showCamera := false }, [])

/-- Running a list of operations from a state, collecting all cleanup
requests issued along the way. -/
def runOps (ops : List PanelOp) (s : PanelState) : PanelState × List String :=
  match ops with
  | [] => (s, [])
  | op :: rest =>
      ((runOps rest (applyOp op s).1).1,
        (applyOp op s).2 ++ (runOps rest (applyOp op s).1).2)

/-- A camera media stream, identified by the list of its track identifiers. -/
structure MediaStream where
  tracks : List Nat
deriving DecidableEq, Repr

/-- The CameraModal lifecycle under React semantics: the effect with an empty
dependency list runs once at mount and its cleanup closure captures the
stream state value of the mount render, which is null; the later stream state
update does not re-create the cleanup. The result is the final stream state
and the list of track identifiers stopped at unmount. -/
def cameraModalLifecycle (getUserMedia : Except Unit MediaStream) :
    Option MediaStream × List Nat :=
  match getUserMedia with
  | Except.ok m =>
      (some m,
        match (none : Option MediaStream) with
        | some captured => captured.tracks
        | none => [])
  | Except.error _ =>
      (none,
        match (none : Option MediaStream) with
        | some captured => captured.tracks
        | none => [])

/-- A concrete observation trace whose channel is open from the third check
on, with the handle present and the session active throughout. -/
def obsOpenAtThird : Nat → ChannelObs := fun i =>
  if i < 2 then { hasChannel := true, sessionActive := true, readyState := "connecting" }
  else { hasChannel := true, sessionActive := true, readyState := "open" }

/-- A concrete observation trace whose channel is never open, with the handle
present and the session active throughout. -/
def obsNeverOpen : Nat → ChannelObs := fun _ =>
  { hasChannel := true, sessionActive := true, readyState := "connecting" }

/-- A concrete observation trace whose channel is open at every check. -/
def obsAllOpen : Nat → ChannelObs := fun _ =>
  { hasChannel := true, sessionActive := true, readyState := "open" }

/-- A take_photo function call event in its direct shape. -/
def takePhotoEvent : RealtimeEvent :=
  { etype := "function_call",
    function := some { fname := some "take_photo" },
    response := none }

/-- A panel state in the middle of an analysis of a captured image. -/
def analyzingState : PanelState :=
  { showCamera := false, currentImageFilename := none, isAnalyzing := true,
    currentImage := some "img", analysisError := none }

/-- A list sum over an initial range equals the corresponding finset sum. -/
theorem list_range_map_sum (f : Nat → Nat) (n : Nat) :
    ((List.range n).map f).sum = Finset.sum (Finset.range n) f := by
  induction n with
  | zero => simp
  | succ n ih =>
      rw [List.range_succ, List.map_append, List.sum_append, Finset.sum_range_succ, ih]
      simp

/-- Shifting the base of the backoff delay map by one step. -/
theorem range_map_pow_shift (attempt n : Nat) :
    (List.range (n + 1)).map (fun i => 1000 * 2 ^ (attempt + i))
      = 1000 * 2 ^ attempt :: (List.range n).map (fun i => 1000 * 2 ^ (attempt + 1 + i)) := by
  rw [List.range_succ_eq_map, List.map_cons, List.map_map]
  have htail : List.map ((fun i => 1000 * 2 ^ (attempt + i)) ∘ Nat.succ) (List.range n)
      = List.map (fun i => 1000 * 2 ^ (attempt + 1 + i)) (List.range n) := by
    apply List.map_congr_left
    intro i _
    simp only [Function.comp_apply]
    rw [Nat.add_succ, ← Nat.succ_add, Nat.succ_eq_add_one]
  rw [htail]
  simp

/-- When the channel first opens at the offset k within the remaining fuel,
the loop sends exactly the message triple after the backoff waits of the
earlier checks. -/
theorem sendAux_first_open (obs : Nat → ChannelObs) (text : Option String) :
    ∀ k attempt fuel, k < fuel →
      (∀ i, i < k → goodClosed (obs (attempt + i))) →
      goodOpen (obs (attempt + k)) →
      sendToModelAux obs text attempt fuel =
        { result := SendResult.sent, msgs := tripleMsgs text,
          waits := (List.range k).map (fun i => 1000 * 2 ^ (attempt + i)) } := by
  intro k
  induction k with
  | zero =>
      intro attempt fuel hk hb ho
      obtain ⟨f, rfl⟩ : ∃ f, fuel = f + 1 := ⟨fuel - 1, by omega⟩
      rw [Nat.add_zero] at ho
      obtain ⟨h1, h2, h3⟩ := ho
      have hcond : ¬ ((obs attempt).hasChannel = false ∨
          (obs attempt).sessionActive = false) := by
        rw [h1, h2]; simp
      unfold sendToModelAux
      rw [if_neg hcond, if_pos h3]
      rfl
  | succ k ih =>
      intro attempt fuel hk hb ho
      obtain ⟨f, rfl⟩ : ∃ f, fuel = f + 1 := ⟨fuel - 1, by omega⟩
      have hc0 : goodClosed (obs attempt) := by
        have := hb 0 (Nat.succ_pos k); rwa [Nat.add_zero] at this
      obtain ⟨h1, h2, h3⟩ := hc0
      have hcond : ¬ ((obs attempt).hasChannel = false ∨
          (obs attempt).sessionActive = false) := by
        rw [h1, h2]; simp
      have hrec := ih (attempt + 1) f (by omega)
        (fun i hi => by
          have := hb (i + 1) (by omega)
          rwa [show attempt + (i + 1) = attempt + 1 + i by omega] at this)
        (by
          have := ho
          rwa [show attempt + (k + 1) = attempt + 1 + k by omega] at this)
      unfold sendToModelAux
      rw [if_neg hcond, if_neg h3, hrec, range_map_pow_shift]

/-- When the channel is closed on every check of the remaining fuel, the loop
sends nothing and performs every backoff wait before failing. -/
theorem sendAux_never_open (obs : Nat → ChannelObs) (text : Option String) :
    ∀ fuel attempt,
      (∀ i, i < fuel → goodClosed (obs (attempt + i))) →
      sendToModelAux obs text attempt fuel =
        { result := SendResult.channelUnavailable, msgs := [],
          waits := (List.range fuel).map (fun i => 1000 * 2 ^ (attempt + i)) } := by
  intro fuel
  induction fuel with
  | zero => intro attempt h; simp [sendToModelAux]
  | succ f ih =>
      intro attempt hb
      have hc0 : goodClosed (obs attempt) := by
        have := hb 0 (Nat.succ_pos f); rwa [Nat.add_zero] at this
      obtain ⟨h1, h2, h3⟩ := hc0
      have hcond : ¬ ((obs attempt).hasChannel = false ∨
          (obs attempt).sessionActive = false) := by
        rw [h1, h2]; simp
      have hrec := ih (attempt + 1) (fun i hi => by
        have := hb (i + 1) (by omega)
        rwa [show attempt + (i + 1) = attempt + 1 + i by omega] at this)
      unfold sendToModelAux
      rw [if_neg hcond, if_neg h3, hrec, range_map_pow_shift]

/-- C1: for every N with 1 ≤ N ≤ 5, if the channel handle exists, the session
is active and the ready state is open on the Nth check, with the handle
present, the session active and the channel not open on the earlier checks,
then sendToModel sends exactly the ordered triple function result, assistant
message, speech trigger, attempts nothing further whatever the later
observations are, and the total backoff wait before the successful check is
the sum of 1000 times 2 to the i for i from 0 to N minus 2, zero when N is
one. -/
theorem c1_delivery_triple_backoff (N : Nat) (obs : Nat → ChannelObs)
    (text : Option String)
    (hN1 : 1 ≤ N) (hN5 : N ≤ 5)
    (hclosed : ∀ i, i + 1 < N → goodClosed (obs i))
    (hopen : goodOpen (obs (N - 1))) :
    sendToModel obs text =
      { result := SendResult.sent, msgs := tripleMsgs text,
        waits := (List.range (N - 1)).map (fun i => 1000 * 2 ^ i) }
    ∧ (sendToModel obs text).waits.sum
        = Finset.sum (Finset.range (N - 1)) (fun i => 1000 * 2 ^ i) := by
  have h := sendAux_first_open obs text (N - 1) 0 5 (by omega)
    (fun i hi => by simpa using hclosed i (by omega))
    (by simpa using hopen)
  have hmap : (List.range (N - 1)).map (fun i => 1000 * 2 ^ (0 + i))
      = (List.range (N - 1)).map (fun i => 1000 * 2 ^ i) := by
    apply List.map_congr_left; intro i _; rw [Nat.zero_add]
  constructor
  · rw [sendToModel, h, hmap]
  · rw [sendToModel, h]
    simp only
    rw [hmap, list_range_map_sum]

/-- Concrete check of the C1 theorem at a channel that opens on the third
check: one triple is sent and the waits are one and two seconds. -/
theorem c1_delivery_triple_backoff_witness :
    sendToModel obsOpenAtThird (some "a cup on a table") =
      { result := SendResult.sent, msgs := tripleMsgs (some "a cup on a table"),
        waits := (List.range 2).map (fun i => 1000 * 2 ^ i) } :=
  (c1_delivery_triple_backoff 3 obsOpenAtThird (some "a cup on a table")
    (by omega) (by omega)
    (fun i hi => by
      have h2 : i = 0 ∨ i = 1 := by omega
      rcases h2 with rfl | rfl <;> decide)
    (by decide)).1

/-- C2: when the channel handle exists and the session is active on all five
checks but the channel is never open, sendToModel fails with the channel
unavailable result, sends zero messages, performs all five backoff waits, and
the state produced by handlePhotoTaken on the success path is untouched by
the background failure. -/
theorem c2_channel_unavailable (obs : Nat → ChannelObs) (catchObs : ChannelObs)
    (imageData analysisText : String) (s : PanelState)
    (hall : ∀ i, i < 5 → goodClosed (obs i)) :
    sendToModel obs (some analysisText) =
      { result := SendResult.channelUnavailable, msgs := [],
        waits := [1000, 2000, 4000, 8000, 16000] }
    ∧ (handlePhotoTaken imageData
        (FetchOutcome.resolved (Body.withContent analysisText)) obs catchObs s).state =
        { s with showCamera := false, currentImage := some imageData,
                 isAnalyzing := false, analysisError := none }
    ∧ (handlePhotoTaken imageData
        (FetchOutcome.resolved (Body.withContent analysisText)) obs catchObs s).delivery =
        some { result := SendResult.channelUnavailable, msgs := [],
               waits := [1000, 2000, 4000, 8000, 16000] } := by
  have h := sendAux_never_open obs (some analysisText) 5 0
    (fun i hi => by simpa using hall i hi)
  have hw : (List.range 5).map (fun i => 1000 * 2 ^ (0 + i))
      = [1000, 2000, 4000, 8000, 16000] := by decide
  refine ⟨?_, rfl, ?_⟩
  · rw [sendToModel, h, hw]
  · show some (sendToModel obs (some analysisText)) = _
    rw [sendToModel, h, hw]

/-- Concrete check of the C2 theorem at a channel that never opens. -/
theorem c2_channel_unavailable_witness :
    sendToModel obsNeverOpen (some "text") =
      { result := SendResult.channelUnavailable, msgs := [],
        waits := [1000, 2000, 4000, 8000, 16000] } :=
  (c2_channel_unavailable obsNeverOpen
    { hasChannel := true, sessionActive := true, readyState := "open" }
    "img" "text" initialState
    (fun i _ => by unfold goodClosed obsNeverOpen; exact ⟨rfl, rfl, by decide⟩)).1

/-- The added item event type differs from the direct function call type. -/
theorem sAdded_ne_fc : ("response.output_item.added" : String) ≠ "function_call" := by
  decide

/-- The completion event type differs from the direct function call type. -/
theorem sDone_ne_fc : ("response.done" : String) ≠ "function_call" := by decide

/-- The completion event type differs from the added item event type. -/
theorem sDone_ne_added : ("response.done" : String) ≠ "response.output_item.added" := by
  decide

/-- The source condition accepts an event exactly when one of the three
shapes of the specification matches. -/
theorem isFC_iff (ev : RealtimeEvent) :
    isFunctionCallEvent ev = Except.ok true ↔ specShapeMatch ev = true := by
  unfold isFunctionCallEvent specShapeMatch
  split_ifs with h1 h2 h3
  · simp [h1]
  · obtain ⟨ha, hb⟩ := h2
    simp only [eq_self_iff_true, true_iff]
    rcases hro : respOutput ev with _ | o
    · rw [hro] at hb; simp [outputDotType] at hb
    · rcases o with ⟨t, nm⟩ | es
      · rw [hro] at hb
        simp only [outputDotType] at hb
        simp [ha, hro, hb, sAdded_ne_fc]
      · rw [hro] at hb; simp [outputDotType] at hb
  · rcases hro : respOutput ev with _ | o
    · simp [outputSomeFC, h3, sDone_ne_fc, sDone_ne_added]
    · rcases o with ⟨t, nm⟩ | es
      · simp [outputSomeFC, h3, sDone_ne_fc, sDone_ne_added]
      · simp [outputSomeFC, h3, sDone_ne_fc, sDone_ne_added]
  · constructor
    · intro h; simp at h
    · intro hs
      exfalso
      by_cases hadd : ev.etype = "response.output_item.added"
      · rcases hro : respOutput ev with _ | o
        · simp [h1, h3, hadd, hro] at hs
        · rcases o with ⟨t, nm⟩ | es
          · have ht : ¬ (t = some "function_call") := by
              intro hteq
              exact h2 ⟨hadd, by rw [hro]; simp [outputDotType, hteq]⟩
            simp [h1, h3, hadd, hro, ht] at hs
          · simp [h1, h3, hadd, hro] at hs
      · simp [h1, h3, hadd] at hs

/-- When the source name resolution returns a value, it is the name the
specification precedence resolves. -/
theorem resolve_ok_name (ev : RealtimeEvent) (n : Option String)
    (h : resolveFunctionName ev = Except.ok n) : specResolvedName ev = n := by
  unfold resolveFunctionName at h
  unfold specResolvedName
  split_ifs at h ⊢ with h1 h2
  · exact Except.ok.inj h
  · exact Except.ok.inj h
  · rcases hro : respOutput ev with _ | o
    · rw [hro] at h
      simp only [outputFindFCName] at h
      exact Except.ok.inj h
    · rcases o with ⟨t, nm⟩ | es
      · rw [hro] at h
        simp only [outputFindFCName] at h
        exact Except.noConfusion h
      · rw [hro] at h
        simp only [outputFindFCName] at h
        exact Except.ok.inj h

/-- When the source name resolution raises the runtime error, the
specification precedence resolves no name. -/
theorem resolve_error_name (ev : RealtimeEvent) (e : Unit)
    (h : resolveFunctionName ev = Except.error e) : specResolvedName ev = none := by
  unfold resolveFunctionName at h
  unfold specResolvedName
  split_ifs at h ⊢ with h1 h2
  rcases hro : respOutput ev with _ | o
  · rfl
  · rcases o with ⟨t, nm⟩ | es
    · rfl
    · rw [hro] at h
      exact absurd h (by simp [outputFindFCName])

/-- The detector reports a take_photo invocation exactly when a
specification shape matches and the specification precedence resolves the
take_photo name. -/
theorem detect_iff (ev : RealtimeEvent) :
    detectTakePhoto ev = Except.ok true ↔
      (specShapeMatch ev = true ∧ specResolvedName ev = some "take_photo") := by
  rcases hfc : isFunctionCallEvent ev with e | b
  · simp only [detectTakePhoto, hfc]
    constructor
    · intro h; exact Except.noConfusion h
    · rintro ⟨hs, -⟩
      rw [← isFC_iff ev, hfc] at hs
      exact Except.noConfusion hs
  · cases b
    · simp only [detectTakePhoto, hfc]
      constructor
      · intro h
        have hb := Except.ok.inj h
        exact Bool.noConfusion hb
      · rintro ⟨hs, -⟩
        rw [← isFC_iff ev, hfc] at hs
        have hb := Except.ok.inj hs
        exact Bool.noConfusion hb
    · have hshape : specShapeMatch ev = true := (isFC_iff ev).1 hfc
      rcases hrn : resolveFunctionName ev with e | n
      · simp only [detectTakePhoto, hfc, hrn]
        constructor
        · intro h; exact Except.noConfusion h
        · rintro ⟨-, hname⟩
          rw [resolve_error_name ev e hrn] at hname
          exact Option.noConfusion hname
      · have hn := resolve_ok_name ev n hrn
        simp only [detectTakePhoto, hfc, hrn]
        constructor
        · intro h
          have hb := Except.ok.inj h
          exact ⟨hshape, by rw [hn]; exact of_decide_eq_true hb⟩
        · rintro ⟨-, hname⟩
          rw [hn] at hname
          rw [hname]
          simp

/-- C3: for every nonempty event list the events effect reports a take_photo
invocation, setting the camera flag and clearing the error, exactly when the
newest event matches one of the three recognized shapes and the name resolved
in the fixed precedence order equals take_photo; any other newest event
leaves the state unchanged or stops on the runtime error of the source
without a state change. -/
theorem c3_classifier (ev : RealtimeEvent) (rest : List RealtimeEvent)
    (s : PanelState) :
    (detectTakePhoto ev = Except.ok true ↔
      (specShapeMatch ev = true ∧ specResolvedName ev = some "take_photo"))
    ∧ eventsEffect (ev :: rest) s =
        (match detectTakePhoto ev with
         | Except.error e => Except.error e
         | Except.ok true => Except.ok { s with showCamera := true, analysisError := none }
         | Except.ok false => Except.ok s) :=
  ⟨detect_iff ev, rfl⟩

/-- The catch branch on the timeout message starts no delivery and sets the
dedicated error text whatever the channel observation is. -/
theorem catchPath_timeout (s1 : PanelState) (catchObs : ChannelObs) :
    (catchPath s1 "Vision analysis timeout" catchObs).delivery = none
    ∧ (catchPath s1 "Vision analysis timeout" catchObs).state.analysisError
        = some "Vision analysis timed out. Please try again." := by
  unfold catchPath
  rw [if_pos rfl]
  split_ifs <;> exact ⟨rfl, rfl⟩

/-- C4: when the request resolves strictly after the ten second timer, the
caller observes the timeout rejection and never a success, independently of
the late outcome; the composed photo flow takes the timeout error path,
starts no delivery and sets the dedicated timeout error text. -/
theorem c4_timeout_race (fetchTime : Nat) (outcome outcome2 : FetchOutcome)
    (tb : Bool) (imageData : String) (obs : Nat → ChannelObs)
    (catchObs : ChannelObs) (s : PanelState)
    (h : VISION_TIMEOUT < fetchTime) :
    analyzeWithTimeout fetchTime outcome tb
        = FetchOutcome.rejected "Vision analysis timeout"
    ∧ analyzeWithTimeout fetchTime outcome tb
        = analyzeWithTimeout fetchTime outcome2 tb
    ∧ (handlePhotoTakenRace imageData fetchTime outcome tb obs catchObs s).delivery = none
    ∧ (handlePhotoTakenRace imageData fetchTime outcome tb obs catchObs s).state.analysisError
        = some "Vision analysis timed out. Please try again." := by
  have hcond : ¬ (fetchTime < VISION_TIMEOUT ∨
      (fetchTime = VISION_TIMEOUT ∧ tb = true)) := by
    rintro (hlt | ⟨heq, -⟩) <;> omega
  have hra : analyzeWithTimeout fetchTime outcome tb
      = FetchOutcome.rejected "Vision analysis timeout" := by
    unfold analyzeWithTimeout
    rw [if_neg hcond]
  have hra2 : analyzeWithTimeout fetchTime outcome2 tb
      = FetchOutcome.rejected "Vision analysis timeout" := by
    unfold analyzeWithTimeout
    rw [if_neg hcond]
  have hrace : handlePhotoTakenRace imageData fetchTime outcome tb obs catchObs s
      = catchPath
          { s with showCamera := false, currentImage := some imageData,
                   isAnalyzing := true, analysisError := none }
          "Vision analysis timeout" catchObs := by
    unfold handlePhotoTakenRace
    rw [hra]
    rfl
  refine ⟨hra, by rw [hra, hra2], ?_, ?_⟩
  · rw [hrace]
    exact (catchPath_timeout _ catchObs).1
  · rw [hrace]
    exact (catchPath_timeout _ catchObs).2

/-- Concrete check of the C4 theorem: a request resolving at 10001
milliseconds with a successful body is ignored and the flow starts no
delivery. -/
theorem c4_timeout_race_witness :
    analyzeWithTimeout 10001 (FetchOutcome.resolved (Body.withContent "late result")) false
        = FetchOutcome.rejected "Vision analysis timeout"
    ∧ (handlePhotoTakenRace "img" 10001
        (FetchOutcome.resolved (Body.withContent "late result")) false obsAllOpen
        (obsAllOpen 0) initialState).delivery = none :=
  ⟨(c4_timeout_race 10001 (FetchOutcome.resolved (Body.withContent "late result"))
      (FetchOutcome.rejected "other") false "img" obsAllOpen (obsAllOpen 0)
      initialState (by decide)).1,
   (c4_timeout_race 10001 (FetchOutcome.resolved (Body.withContent "late result"))
      (FetchOutcome.rejected "other") false "img" obsAllOpen (obsAllOpen 0)
      initialState (by decide)).2.2.1⟩

/-- C5: when the session active flag goes false while an image filename is
set, exactly one cleanup request carrying that filename is issued and the
camera, analyzing, error and image cells reset to false, false, none and
none. -/
theorem c5_cleanup_on_session_end (s : PanelState) (fn : String)
    (h : s.currentImageFilename = some fn) :
    sessionEndEffect false s =
      ({ showCamera := false, currentImageFilename := none, isAnalyzing := false,
         currentImage := none, analysisError := none }, [fn]) := by
  unfold sessionEndEffect
  rw [if_pos rfl, h]

/-- Concrete check of the C5 theorem at a fully loaded state. -/
theorem c5_cleanup_on_session_end_witness :
    sessionEndEffect false
      { showCamera := true, currentImageFilename := some "photo.jpg",
        isAnalyzing := true, currentImage := some "data", analysisError := some "e" } =
      ({ showCamera := false, currentImageFilename := none, isAnalyzing := false,
         currentImage := none, analysisError := none }, ["photo.jpg"]) :=
  c5_cleanup_on_session_end _ "photo.jpg" rfl

/-- C8 counterexample: a resolved body whose message object exists but has no
content field does not take the error path; the analysis error stays empty
and the delivery starts with an undefined text. -/
theorem c8_counterexample :
    (handlePhotoTaken "img" (FetchOutcome.resolved Body.messageNoContent) obsAllOpen
        (obsAllOpen 0) initialState).state.analysisError = none
    ∧ (handlePhotoTaken "img" (FetchOutcome.resolved Body.messageNoContent) obsAllOpen
        (obsAllOpen 0) initialState).delivery
      = some { result := SendResult.sent, msgs := tripleMsgs none, waits := [] } :=
  ⟨rfl, rfl⟩

/-- C8 amended: a resolved body whose message field is missing makes the
content read raise, the catch branch runs with the runtime error message as
the user visible error, and no delivery is started. -/
theorem c8_request_failed_amended (imageData tyErrMsg : String)
    (obs : Nat → ChannelObs) (catchObs : ChannelObs) (s : PanelState)
    (hne : tyErrMsg ≠ "Vision analysis timeout") :
    handlePhotoTaken imageData (FetchOutcome.resolved (Body.noMessage tyErrMsg))
        obs catchObs s =
      { state :=
          { s with showCamera := false, currentImage := some imageData,
                   isAnalyzing := false, analysisError := some tyErrMsg },
        delivery := none, apologyMsgs := [] } := by
  show catchPath _ tyErrMsg catchObs = _
  unfold catchPath
  rw [if_neg hne]

/-- Concrete check of the amended C8 theorem at a runtime type error
message. -/
theorem c8_request_failed_amended_witness :
    handlePhotoTaken "img"
        (FetchOutcome.resolved (Body.noMessage "Cannot read content of undefined"))
        obsAllOpen (obsAllOpen 0) initialState =
      { state :=
          { initialState with showCamera := false, currentImage := some "img",
                              isAnalyzing := false,
                              analysisError := some "Cannot read content of undefined" },
        delivery := none, apologyMsgs := [] } :=
  c8_request_failed_amended "img" "Cannot read content of undefined" obsAllOpen
    (obsAllOpen 0) initialState (by decide)

/-- C9: on the timeout failure the controller sets the dedicated timeout
error text and, when the channel handle exists and is open, sends exactly the
assistant message followed by the speech trigger, skipping the function
result; a non timeout failure sends no apology messages. -/
theorem c9_timeout_apology (imageData errMsg : String) (obs : Nat → ChannelObs)
    (catchObs : ChannelObs) (s : PanelState)
    (hopen : catchObs.hasChannel = true ∧ catchObs.readyState = "open")
    (hne : errMsg ≠ "Vision analysis timeout") :
    (handlePhotoTaken imageData (FetchOutcome.rejected "Vision analysis timeout")
        obs catchObs s).state.analysisError
      = some "Vision analysis timed out. Please try again."
    ∧ (handlePhotoTaken imageData (FetchOutcome.rejected "Vision analysis timeout")
        obs catchObs s).apologyMsgs
      = [ClientEvent.assistantMessage
           (some "Vision analysis timed out. Please try again."),
         ClientEvent.speechStart "verse"
           (some "I\x27m sorry, but the vision analysis timed out. Please try taking another photo.")]
    ∧ (handlePhotoTaken imageData (FetchOutcome.rejected errMsg) obs catchObs s).apologyMsgs
      = [] := by
  refine ⟨?_, ?_, ?_⟩
  · show (catchPath _ "Vision analysis timeout" catchObs).state.analysisError = _
    unfold catchPath
    rw [if_pos rfl, if_pos hopen]
  · show (catchPath _ "Vision analysis timeout" catchObs).apologyMsgs = _
    unfold catchPath
    rw [if_pos rfl, if_pos hopen]
  · show (catchPath _ errMsg catchObs).apologyMsgs = _
    unfold catchPath
    rw [if_neg hne]

/-- Concrete check of the C9 theorem with an open channel and a non timeout
failure. -/
theorem c9_timeout_apology_witness :
    (handlePhotoTaken "img" (FetchOutcome.rejected "Vision analysis timeout")
        obsAllOpen { hasChannel := true, sessionActive := true, readyState := "open" }
        initialState).apologyMsgs
      = [ClientEvent.assistantMessage
           (some "Vision analysis timed out. Please try again."),
         ClientEvent.speechStart "verse"
           (some "I\x27m sorry, but the vision analysis timed out. Please try taking another photo.")] :=
  (c9_timeout_apology "img" "Failed to fetch" obsAllOpen
    { hasChannel := true, sessionActive := true, readyState := "open" }
    initialState ⟨rfl, rfl⟩ (by decide)).2.1

/-- C6: the events effect carries no guard on the analyzing flag; a
take_photo event arriving while an analysis is in progress re-shows the
camera instead of being ignored, so the state is changed back into the
camera requested shape. -/
theorem c6_reentrancy_not_guarded :
    analyzingState.isAnalyzing = true
    ∧ eventsEffect [takePhotoEvent] analyzingState
        = Except.ok { analyzingState with showCamera := true, analysisError := none }
    ∧ ({ analyzingState with showCamera := true, analysisError := none } : PanelState)
        ≠ analyzingState := by
  refine ⟨rfl, rfl, ?_⟩
  intro hcontra
  have hflag := congrArg PanelState.showCamera hcontra
  simp [analyzingState] at hflag

/-- C7: the cleanup closure of the camera modal captures the null stream
value of the mount render, so after a successful acquisition the unmount of
the modal stops no track: every exit path leaves the acquired tracks
running, whatever they are. -/
theorem c7_stream_not_released (m : MediaStream) :
    cameraModalLifecycle (Except.ok m) = (some m, []) := rfl

/-- Every operation applied to a state with an empty image filename keeps the
filename empty and issues no cleanup request. -/
theorem applyOp_preserves (op : PanelOp) (s : PanelState)
    (h : s.currentImageFilename = none) :
    (applyOp op s).1.currentImageFilename = none ∧ (applyOp op s).2 = [] := by
  cases op with
  | eventsArrive evs =>
      refine ⟨?_, rfl⟩
      cases evs with
      | nil => exact h
      | cons ev rest =>
          simp only [applyOp, eventsEffect]
          rcases detectTakePhoto ev with e | b

          · exact h
          · cases b
            · exact h
            · exact h
  | sessionSet active =>
      cases active with
      | true => exact ⟨h, rfl⟩
      | false =>
          simp only [applyOp, sessionEndEffect]
          rw [if_pos trivial, h]
          exact ⟨rfl, rfl⟩
  | photoTaken img fr obs co =>
      refine ⟨?_, rfl⟩
      cases fr with
      | resolved body =>
          cases body with
          | withContent t => exact h
          | messageNoContent => exact h
          | noMessage m =>
              show (catchPath _ m co).state.currentImageFilename = none
              unfold catchPath
              split_ifs <;> exact h
      | rejected m =>
          show (catchPath _ m co).state.currentImageFilename = none
          unfold catchPath
          split_ifs <;> exact h
  | closeCamera => exact ⟨h, rfl⟩

/-- C10: from the initial state, every sequence of panel operations leaves
the current image filename empty, so the cleanup branch never fires and no
cleanup request is ever issued. -/
theorem c10_filename_always_none (ops : List PanelOp) :
    (runOps ops initialState).1.currentImageFilename = none
    ∧ (runOps ops initialState).2 = [] := by
  have key : ∀ (l : List PanelOp) (s : PanelState), s.currentImageFilename = none →
      (runOps l s).1.currentImageFilename = none ∧ (runOps l s).2 = [] := by
    intro l
    induction l with
    | nil => intro s h; exact ⟨h, rfl⟩
    | cons op rest ih =>
        intro s h
        obtain ⟨h1, h2⟩ := applyOp_preserves op s h
        obtain ⟨h3, h4⟩ := ih (applyOp op s).1 h1
        refine ⟨h3, ?_⟩
        simp only [runOps]
        rw [h2, h4]
        rfl
  exact key ops initialState rfl

end RealtimeVision
